import Mathlib

/-
Verification of the inventory-ledger core of `dashboard_fabrica_pinceles.py`.

The Python program keeps seven CSV tables (catalog, raw-material stock,
movement log, finished-goods stock, production records, orders, dispatch
records) and mutates them through a handful of operations:
`actualizar_stock` (the stock-ledger delta application), `add_movimiento`
(the movement-log append), the entry / manual-adjustment / production /
order-production / dispatch flows, the duplicate merge of the stock table,
and the pure recipe resolver `compute_mp_needs`.

This file gives a shallow embedding of those operations.  The CSV files
become lists of records inside a `Store`; `datetime.now()` becomes an
explicit `now : Nat` parameter; pandas row lookups become list filters,
and `save_df` becomes returning the updated store (the Python code only
writes a file on the success paths, which the embedding mirrors by
returning the original list on every failure path).
-/

/-- Embedding of Python `s.split(" - ")` on the character list of a string:
splits at each left-to-right, non-overlapping occurrence of `" - "`. -/
def splitGuion : List Char → List (List Char)
  | ' ' :: '-' :: ' ' :: rest => [] :: splitGuion rest
  | c :: rest =>
    match splitGuion rest with
    | [] => [[c]]
    | g :: gs => (c :: g) :: gs
  | [] => [[]]

/-- Python `s.split(" - ")` as a function on `String`. -/
def strSplit (s : String) : List String := (splitGuion s.data).map String.mk

/-- A row of `materials_catalog.csv`: (tipo, variante, stock_minimo). -/
structure CatalogEntry where
  tipo : String
  variante : String
  stock_minimo : Int
deriving DecidableEq, Repr

/-- A row of `stock_actual.csv`: one raw-material stock line.
`ultima_entrada` is `none` for pandas `NaT`. -/
structure StockLine where
  tipo : String
  variante : String
  stock_minimo : Int
  stock_actual : Int
  ultima_entrada : Option Nat
  proveedor_mas_frecuente : String
deriving DecidableEq, Repr

/-- A row of `stock_movimientos.csv`, as built by `add_movimiento`. -/
structure Movimiento where
  fecha : Nat
  tipo_movimiento : String
  tipo : String
  variante : String
  cantidad : Int
  proveedor : String
  documento : String
  observaciones : String
  usuario : String
deriving DecidableEq, Repr

/-- A row of `stock_productos.csv`: one finished-goods line. -/
structure Producto where
  tipo_producto : String
  variante_producto : String
  stock_actual : Int
deriving DecidableEq, Repr

/-- A row of `produccion.csv`: one production record.  `page_produccion`
omits `variante_producto` except for "pincel normal"; the embedding uses
`""` for the omitted value. -/
structure Produccion where
  fecha : Nat
  tipo_producto : String
  cantidad : Int
  usuario : String
  nota : String
  variante_producto : String
deriving DecidableEq, Repr

/-- A row of `pedidos.csv`: one customer order. -/
structure Pedido where
  id : Int
  fecha : Nat
  cliente : String
  tipo_producto : String
  variante_producto : String
  cantidad : Int
  fecha_entrega : String
  estado : String
  nota : String
deriving DecidableEq, Repr

/-- A row of `despachos.csv`: one dispatch record. -/
structure Despacho where
  id_despacho : Int
  fecha : Nat
  pedido_id : Int
  cliente : String
  tipo_producto : String
  variante_producto : String
  cantidad : Int
  nota : String
  usuario : String
deriving DecidableEq, Repr

/-- The persisted state: the seven CSV files of the `data` directory. -/
structure Store where
  catalogo : List CatalogEntry
  stock_mp : List StockLine
  movimientos : List Movimiento
  productos : List Producto
  produccion : List Produccion
  pedidos : List Pedido
  despachos : List Despacho
deriving DecidableEq, Repr

/-- The row mask `(stock["tipo"] == tipo) & (stock["variante"] == variante)`
used by `actualizar_stock`. -/
def coincide (tipo variante : String) (r : StockLine) : Bool :=
  r.tipo == tipo && r.variante == variante

/-- Number of occurrences of a value in a list, as counted by
`value_counts()` for one value. -/
def cuenta (x : String) (l : List String) : Nat :=
  (l.filter (fun y => y == x)).length

/-- Head of `value_counts()`: the most frequent value of the list, ties
broken by first occurrence (a later value replaces the current best only
when its count is strictly larger).  Returns `""` on the empty list, which
`actualizar_stock` never consults. -/
def moda (l : List String) : String :=
  (l.foldl
    (fun best x =>
      match best with
      | none => some x
      | some b => if cuenta x l > cuenta b l then some x else best)
    none).getD ""

/-- Outcome of `actualizar_stock`.  The Python function returns
`(True, nuevo)` on success, `(False, actual)` when the delta would drive
the stock negative, and `(False, None)` after `st.error` reporting the
number of rows matching the key when that number is not 1. -/
inductive StockResult where
  | ok (nuevo : Int)
  | negativo (actual : Int)
  | duplicado (filas : Nat)
deriving DecidableEq, Repr

/-- The auto-created stock line of `actualizar_stock` for a key missing
from the table: minimum 0, quantity 0, no entry date, the given supplier. -/
def lineaNueva (tipo variante proveedor : String) : StockLine :=
  { tipo := tipo, variante := variante, stock_minimo := 0, stock_actual := 0,
    ultima_entrada := none, proveedor_mas_frecuente := proveedor }

/-- `actualizar_stock(tipo, variante, delta, proveedor, es_entrada)`.

Reads the stock table and the movement log; returns the result together
with the stock table as stored after the call (the Python code calls
`save_df` only on the success path, so every failure returns the original
table).  Steps, as in the source: if no row matches the key, append an
auto-created row; if the number of matching rows is then not exactly 1,
fail with the duplicate-row error and no mutation; otherwise reject a
delta that would make the quantity negative, returning the current
quantity; on success store the new quantity and, for an entry, set
`ultima_entrada := now` and, when a non-empty supplier was given and
ENTRADA movements for the key exist, replace the most-frequent supplier
by the mode of their `proveedor` column. -/
def actualizar_stock (movs : List Movimiento) (stock : List StockLine)
    (tipo variante : String) (delta : Int) (proveedor : String)
    (es_entrada : Bool) (now : Nat) : StockResult × List StockLine :=
  let stock1 :=
    if stock.any (coincide tipo variante) then stock
    else stock ++ [lineaNueva tipo variante proveedor]
  match stock1.filter (coincide tipo variante) with
  | [r] =>
    let nuevo := r.stock_actual + delta
    if nuevo < 0 then
      (.negativo r.stock_actual, stock)
    else
      let r2 :=
        if es_entrada then
          let prov2 :=
            if proveedor ≠ "" then
              let provs := (movs.filter (fun m =>
                m.tipo == tipo && m.variante == variante &&
                m.tipo_movimiento == "ENTRADA")).map Movimiento.proveedor
              if provs.isEmpty then r.proveedor_mas_frecuente else moda provs
            else r.proveedor_mas_frecuente
          { r with stock_actual := nuevo, ultima_entrada := some now,
                   proveedor_mas_frecuente := prov2 }
        else { r with stock_actual := nuevo }
      (.ok nuevo, stock1.map (fun x => if coincide tipo variante x then r2 else x))
  | otros => (.duplicado otros.length, stock)

/-- `add_movimiento`: pure append of one row to the movement log. -/
def add_movimiento (movs : List Movimiento) (fecha : Nat)
    (tipo_mov tipo variante : String) (cantidad : Int)
    (proveedor documento observaciones usuario : String) : List Movimiento :=
  movs ++ [{ fecha := fecha, tipo_movimiento := tipo_mov, tipo := tipo,
             variante := variante, cantidad := cantidad, proveedor := proveedor,
             documento := documento, observaciones := observaciones,
             usuario := usuario }]

/-- Outcome of the entry form of `page_entradas`. -/
inductive EntradaResult where
  | ok (nuevo : Int)
  | sinVariante
  | noEnCatalogo
  | catalogoDuplicado
  | errorStock
deriving DecidableEq, Repr

/-- The submit branch of the entry form of `page_entradas`: reject an
empty variant; require exactly one catalog row for the key; run
`actualizar_stock` with the positive quantity, the supplier and
`es_entrada=True`; on its success append one ENTRADA movement of the same
quantity.  `fechaMov` is the timestamp `datetime.combine(fecha, now)`
passed to `add_movimiento`; `now` is the clock read by
`actualizar_stock`. -/
def registrar_entrada (s : Store) (tipo variante : String) (cantidad : Int)
    (proveedor documento obs usuario : String) (fechaMov now : Nat) :
    EntradaResult × Store :=
  if variante = "" then (.sinVariante, s)
  else
    let cnt := (s.catalogo.filter (fun c =>
      c.tipo == tipo && c.variante == variante)).length
    if cnt = 0 then (.noEnCatalogo, s)
    else if 1 < cnt then (.catalogoDuplicado, s)
    else
      match actualizar_stock s.movimientos s.stock_mp tipo variante cantidad
          proveedor true now with
      | (.ok nuevo, stock2) =>
        (.ok nuevo,
         { s with stock_mp := stock2,
                  movimientos := add_movimiento s.movimientos fechaMov "ENTRADA"
                    tipo variante cantidad proveedor documento obs usuario })
      | (_, stock2) => (.errorStock, { s with stock_mp := stock2 })

/-- Outcome of the manual stock adjustment of `editable_stock_table`. -/
inductive AjusteResult where
  | ok (nuevo : Int)
  | rechazado
deriving DecidableEq, Repr

/-- The "Aplicar ajuste" button of `editable_stock_table`: run
`actualizar_stock` with the signed delta (no supplier, not an entry); on
success append one movement of kind AJUSTE when `delta >= 0`, SALIDA when
`delta < 0`, of magnitude `abs delta`. -/
def aplicar_ajuste (s : Store) (tipo variante : String) (delta : Int)
    (obs usuario : String) (now : Nat) : AjusteResult × Store :=
  match actualizar_stock s.movimientos s.stock_mp tipo variante delta "" false now with
  | (.ok nuevo, stock2) =>
    let mov_tipo := if 0 ≤ delta then "AJUSTE" else "SALIDA"
    (.ok nuevo,
     { s with stock_mp := stock2,
              movimientos := add_movimiento s.movimientos now mov_tipo
                tipo variante (abs delta) "" "" obs usuario })
  | (_, stock2) => (.rechazado, { s with stock_mp := stock2 })

/-- The key `(tipo, variante)` of a stock line, the grouping key of the
duplicate merge. -/
def claveStock (r : StockLine) : String × String := (r.tipo, r.variante)

/-- Order on stock keys: lexicographic on the two strings.  Pandas sorts
the group keys of `groupby(["tipo", "variante"])` this way (default
`sort=True`). -/
def claveLe (a b : String × String) : Prop :=
  a.1 < b.1 ∨ (a.1 = b.1 ∧ a.2 ≤ b.2)

instance : DecidableRel claveLe := fun a b => by
  unfold claveLe
  infer_instance

instance : IsTotal (String × String) claveLe := by
  constructor
  intro a b
  rcases lt_trichotomy a.1 b.1 with h | h | h
  · exact Or.inl (Or.inl h)
  · rcases le_total a.2 b.2 with h2 | h2
    · exact Or.inl (Or.inr ⟨h, h2⟩)
    · exact Or.inr (Or.inr ⟨h.symm, h2⟩)
  · exact Or.inr (Or.inl h)

instance : IsTrans (String × String) claveLe := by
  constructor
  intro a b c hab hbc
  rcases hab with h1 | ⟨e1, le1⟩
  · rcases hbc with h2 | ⟨e2, _⟩
    · exact Or.inl (h1.trans h2)
    · exact Or.inl (e2 ▸ h1)
  · rcases hbc with h2 | ⟨e2, le2⟩
    · exact Or.inl (e1 ▸ h2)
    · exact Or.inr ⟨e1.trans e2, le1.trans le2⟩

/-- Pandas `max` of the `ultima_entrada` column of a group, folded one
value at a time: missing values (`NaT`) are skipped, the result is `none`
only when every value is missing. -/
def maxFecha : Option Nat → Option Nat → Option Nat
  | none, b => b
  | some a, none => some a
  | some a, some b => some (max a b)

/-- The aggregation of one `groupby(["tipo", "variante"])` group in the
"Fusionar duplicados" button: `stock_minimo` max, `stock_actual` sum,
`ultima_entrada` max, `proveedor_mas_frecuente` first, rows taken in
table order.  The `[]` branch is never reached for a key drawn from the
table. -/
def agrupa (l : List StockLine) (k : String × String) : StockLine :=
  match l.filter (coincide k.1 k.2) with
  | [] => { tipo := k.1, variante := k.2, stock_minimo := 0, stock_actual := 0,
            ultima_entrada := none, proveedor_mas_frecuente := "" }
  | r :: resto =>
    { tipo := k.1, variante := k.2,
      stock_minimo := resto.foldl (fun a x => max a x.stock_minimo) r.stock_minimo,
      stock_actual := resto.foldl (fun a x => a + x.stock_actual) r.stock_actual,
      ultima_entrada := resto.foldl (fun a x => maxFecha a x.ultima_entrada) r.ultima_entrada,
      proveedor_mas_frecuente := r.proveedor_mas_frecuente }

/-- The "Fusionar duplicados" button of `editable_stock_table`:
`groupby(["tipo", "variante"]).agg({stock_minimo: max, stock_actual: sum,
ultima_entrada: max, proveedor_mas_frecuente: first})`, with the group
keys sorted as pandas does. -/
def merge_duplicates (l : List StockLine) : List StockLine :=
  (List.insertionSort claveLe (l.map claveStock).dedup).map (agrupa l)

/-- `compute_mp_needs(tipo_prod, variante_producto, cantidad)`: the pure
recipe resolver.  "pincel normal" with a non-empty variant consumes one
Mango of the full variant and one Chapita of the part before `" - "` per
unit; "pinceleta" with a non-empty variant that splits into exactly two
non-empty parts consumes one Manguito pinceleta of the colour, one
Chapita pinceleta of the size and one Cerda pinceleta "estándar" per
unit; everything else resolves to the empty list (the `try/except
ValueError` of the source maps a variant that does not split into exactly
two parts to `("", "")`, hence to the empty list). -/
def compute_mp_needs (tipo_prod variante_producto : String) (cantidad : Int) :
    List (String × String × Int) :=
  if tipo_prod = "pincel normal" ∧ variante_producto ≠ "" then
    [("Mango", variante_producto, cantidad),
     ("Chapita", (strSplit variante_producto).headD "", cantidad)]
  else if tipo_prod = "pinceleta" ∧ variante_producto ≠ "" then
    match strSplit variante_producto with
    | [color_sel, chapita_sel] =>
      if color_sel ≠ "" ∧ chapita_sel ≠ "" then
        [("Manguito pinceleta", color_sel, cantidad),
         ("Chapita pinceleta", chapita_sel, cantidad),
         ("Cerda pinceleta", "estándar", cantidad)]
      else []
    | _ => []
  else []

/-- One line of the shortfall report of the pre-production stock check:
either the key has no stock row, or the available quantity is below the
required one. -/
inductive Falta where
  | noExiste (tipo variante : String)
  | insuficiente (tipo variante : String) (disp req : Int)
deriving DecidableEq, Repr

/-- The stock-sufficiency loop shared by `page_produccion`,
`page_pedidos` (new-order hint) and the per-order production button: for
each consumption line in order, report a shortfall when no stock row
matches the key or when the first matching row has less than the required
quantity. -/
def calcular_faltas (stock : List StockLine)
    (items : List (String × String × Int)) : List Falta :=
  (items.map (fun x =>
    match stock.find? (coincide x.1 x.2.1) with
    | none => [Falta.noExiste x.1 x.2.1]
    | some r => if r.stock_actual < x.2.2 then
        [Falta.insuficiente x.1 x.2.1 r.stock_actual x.2.2]
      else [])).join

/-- The debit loop of the production flows: for each consumption line in
order, `actualizar_stock` with the negated quantity and, on its success,
one SALIDA movement of that quantity; on a failed debit stop immediately,
returning the failing key and the store as already mutated by the earlier
iterations (the source `return`s / `st.rerun()`s there without rolling
back). -/
def aplicar_items (s : Store) (items : List (String × String × Int))
    (nota_mov usuario : String) (now : Nat) :
    Option (String × String) × Store :=
  match items with
  | [] => (none, s)
  | x :: rest =>
    match actualizar_stock s.movimientos s.stock_mp x.1 x.2.1 (-x.2.2) "" false now with
    | (.ok _, stock2) =>
      aplicar_items
        { s with stock_mp := stock2,
                 movimientos := add_movimiento s.movimientos now "SALIDA"
                   x.1 x.2.1 x.2.2 "" "" nota_mov usuario }
        rest nota_mov usuario now
    | (_, _) => (some (x.1, x.2.1), s)

/-- Update of the first list element satisfying the mask, as pandas
`df.at[df.index[mask][0], ...] = ...` does. -/
def actualizaPrimero (p : α → Bool) (f : α → α) : List α → List α
  | [] => []
  | x :: xs => if p x then f x :: xs else x :: actualizaPrimero p f xs

/-- Step 5 of the production flows: credit the finished-goods line for
`(tipo_prod, variante)`, creating it at 0 first when absent, then adding
the produced quantity to the first matching row. -/
def acreditar_terminado (s : Store) (tipo_prod variante : String)
    (cant : Int) : Store :=
  let prods :=
    if s.productos.any (fun p =>
        p.tipo_producto == tipo_prod && p.variante_producto == variante)
    then s.productos
    else s.productos ++ [{ tipo_producto := tipo_prod,
                           variante_producto := variante, stock_actual := 0 }]
  let prods2 :=
    actualizaPrimero
      (fun p => p.tipo_producto == tipo_prod && p.variante_producto == variante)
      (fun p => { p with stock_actual := p.stock_actual + cant }) prods
  { s with productos := prods2 }

/-- Outcome of the "Registrar producción" form of `page_produccion`. -/
inductive ProdResult where
  | ok
  | faltaMP (faltas : List Falta)
  | falloDescuento (tipo variante : String)
deriving DecidableEq, Repr

/-- The automatic consumption lines of `page_produccion`: for
"pincel normal" with the auto checkbox and a non-empty variant, one Mango
of the variant and one Chapita of the part before `" - "` per unit; for
"pinceleta", one Manguito of the colour, one Chapita pinceleta of the
size and one Cerda pinceleta "estándar" per unit.  For a "pinceleta"
variant that does not split into exactly two parts the source would raise
`ValueError` at the tuple unpacking; that point is unreachable from the
page (the variant is always built as `"<color> - <chapita>"`) and the
embedding consumes nothing there. -/
def auto_items_produccion (tipo_prod variante_producto : String)
    (cant : Int) (auto_desc : Bool) : List (String × String × Int) :=
  if tipo_prod = "pincel normal" ∧ auto_desc ∧ variante_producto ≠ "" then
    [("Mango", variante_producto, cant),
     ("Chapita", (strSplit variante_producto).headD "", cant)]
  else if tipo_prod = "pinceleta" ∧ auto_desc ∧ variante_producto ≠ "" then
    match strSplit variante_producto with
    | [color_sel, chapita_sel] =>
      [("Manguito pinceleta", color_sel, cant),
       ("Chapita pinceleta", chapita_sel, cant),
       ("Cerda pinceleta", "estándar", cant)]
    | _ => []
  else []

/-- The submit branch of the production form of `page_produccion`.

Order of effects, as in the source: (1) a `Produccion` row is appended
and saved BEFORE any stock check (its `variante_producto` is filled only
for "pincel normal"); (2) the automatic consumption lines are built from
the product type and variant; (3) the caller-supplied manual lines are
filtered to those with a type, a variant and a positive quantity; (4) the
shortfall report is computed over the concatenation; if non-empty the
function returns there, with the production row already saved; (5)
otherwise each line is debited and a SALIDA movement appended, stopping
at the first failed debit; (6) finally the finished-goods line is
credited.  For a "pinceleta" variant that does not split into exactly two
parts the source would raise `ValueError` at the tuple unpacking; that
point is unreachable from the page (the variant is always built as
`"<color> - <chapita>"`) and the embedding consumes nothing there. -/
def registrar_produccion (s : Store) (tipo_prod variante_producto : String)
    (cant : Int) (auto_desc : Bool) (items : List (String × String × Int))
    (nota usuario : String) (now : Nat) : ProdResult × Store :=
  let fila : Produccion :=
    { fecha := now, tipo_producto := tipo_prod, cantidad := cant,
      usuario := usuario, nota := nota,
      variante_producto :=
        if tipo_prod = "pincel normal" ∧ variante_producto ≠ "" then
          variante_producto
        else "" }
  let s1 := { s with produccion := s.produccion ++ [fila] }
  let auto_items := auto_items_produccion tipo_prod variante_producto cant auto_desc
  let manual_validos := items.filter (fun x => x.1 ≠ "" ∧ x.2.1 ≠ "" ∧ 0 < x.2.2)
  let all_items := auto_items ++ manual_validos
  let faltas := calcular_faltas s1.stock_mp all_items
  if faltas ≠ [] then (.faltaMP faltas, s1)
  else
    match aplicar_items s1 all_items ("Producción " ++ tipo_prod) usuario now with
    | (some tv, s2) => (.falloDescuento tv.1 tv.2, s2)
    | (none, s2) => (.ok, acreditar_terminado s2 tipo_prod variante_producto cant)

/-- The full/partial mode radio of the per-order production and dispatch
buttons of `page_pedidos`. -/
inductive Modo where
  | completo
  | parcial
deriving DecidableEq, Repr

/-- Outcome of the per-order "Generar producción" button of
`page_pedidos`. -/
inductive GenResult where
  | ok
  | noEncontrado
  | cantidadInvalida
  | faltaMP (faltas : List Falta)
  | falloDescuento (tipo variante : String)
deriving DecidableEq, Repr

/-- The per-order "Generar producción" button of `page_pedidos`: look the
order up by id (first matching row); take the full requested quantity in
Completo mode, the typed quantity in Parcial mode, rejecting a
non-positive one; resolve the recipe with `compute_mp_needs` and abort
with no store change on any shortfall; otherwise append a `Produccion`
row, debit every line with a SALIDA movement each (stopping at a failed
debit with the store as mutated so far), credit the finished-goods line,
and set the state of every row of the order to "en_produccion" — whatever
state it was in. -/
def generar_produccion (s : Store) (pid : Int) (modo : Modo)
    (qty_prod : Int) (usuario : String) (now : Nat) : GenResult × Store :=
  match s.pedidos.find? (fun p => p.id == pid) with
  | none => (.noEncontrado, s)
  | some rb =>
    let qty := match modo with
      | .completo => rb.cantidad
      | .parcial => qty_prod
    if qty ≤ 0 then (.cantidadInvalida, s)
    else
      let needs := compute_mp_needs rb.tipo_producto rb.variante_producto qty
      let faltas := calcular_faltas s.stock_mp needs
      if faltas ≠ [] then (.faltaMP faltas, s)
      else
        let fila : Produccion :=
          { fecha := now, tipo_producto := rb.tipo_producto, cantidad := qty,
            usuario := usuario,
            nota := "Generado desde pedido " ++ toString pid,
            variante_producto := rb.variante_producto }
        let s1 := { s with produccion := s.produccion ++ [fila] }
        match aplicar_items s1 needs
            ("Producción desde pedido " ++ toString pid) usuario now with
        | (some tv, s2) => (.falloDescuento tv.1 tv.2, s2)
        | (none, s2) =>
          let s3 := acreditar_terminado s2 rb.tipo_producto rb.variante_producto qty
          let peds := s3.pedidos.map (fun p =>
            if p.id == pid then { p with estado := "en_produccion" } else p)
          (.ok, { s3 with pedidos := peds })

/-- Outcome of the per-order "Despachar" button of `page_pedidos`. -/
inductive DespResult where
  | ok
  | noEncontrado
  | cantidadInvalida
  | sinTerminados
  | stockInsuficiente (disp req : Int)
deriving DecidableEq, Repr

/-- Maximum of the `id_despacho` column, used for the next dispatch id. -/
def maxIdDespacho : List Despacho → Int
  | [] => 0
  | d :: ds => ds.foldl (fun a x => max a x.id_despacho) d.id_despacho

/-- The per-order "Despachar" button of `page_pedidos`: look the order up
by id; take the requested quantity in Completo mode, the typed quantity
in Parcial mode, rejecting a non-positive one; require a finished-goods
row for the product and `stock_actual >= qty`, failing with no store
change otherwise; then debit the first matching finished-goods row,
append a `Despacho` row with id `max existing + 1` (1 when the table is
empty), and set the state of every row of the order to "completado" when
the mode is Completo and `qty >= solicitado`, to "confirmado" in every
other case — in particular always "confirmado" in Parcial mode. -/
def despachar (s : Store) (pid : Int) (modo : Modo) (qty_row : Int)
    (usuario : String) (now : Nat) : DespResult × Store :=
  match s.pedidos.find? (fun p => p.id == pid) with
  | none => (.noEncontrado, s)
  | some rb =>
    let qty := match modo with
      | .completo => rb.cantidad
      | .parcial => qty_row
    if qty ≤ 0 then (.cantidadInvalida, s)
    else
      let mascara := fun (p : Producto) =>
        p.tipo_producto == rb.tipo_producto &&
        p.variante_producto == rb.variante_producto
      match s.productos.find? mascara with
      | none => (.sinTerminados, s)
      | some pl =>
        if pl.stock_actual < qty then (.stockInsuficiente pl.stock_actual qty, s)
        else
          let prods2 := actualizaPrimero mascara
            (fun p => { p with stock_actual := pl.stock_actual - qty }) s.productos
          let next_id :=
            if s.despachos.isEmpty then 1 else maxIdDespacho s.despachos + 1
          let filaD : Despacho :=
            { id_despacho := next_id, fecha := now, pedido_id := pid,
              cliente := rb.cliente, tipo_producto := rb.tipo_producto,
              variante_producto := rb.variante_producto, cantidad := qty,
              nota := "", usuario := usuario }
          let estado2 :=
            if modo = Modo.completo ∧ rb.cantidad ≤ qty then "completado"
            else "confirmado"
          let peds := s.pedidos.map (fun p =>
            if p.id == pid then { p with estado := estado2 } else p)
          (.ok, { s with productos := prods2,
                         despachos := s.despachos ++ [filaD],
                         pedidos := peds })

/-- The auto-created line always matches the key it was created for. -/
theorem coincide_lineaNueva (tipo variante proveedor : String) :
    coincide tipo variante (lineaNueva tipo variante proveedor) = true := by
  simp [coincide, lineaNueva]

/-- A key with a unique match in the table keeps the table as is on the
table-preparation step of `actualizar_stock` (the row exists, so nothing
is auto-created). -/
theorem any_of_filter_eq_singleton {stock : List StockLine}
    {tipo variante : String} {r : StockLine}
    (h : stock.filter (coincide tipo variante) = [r]) :
    stock.any (coincide tipo variante) = true := by
  have hr : r ∈ stock.filter (coincide tipo variante) := by
    rw [h]
    exact List.mem_singleton_self r
  rw [List.mem_filter] at hr
  exact List.any_eq_true.2 ⟨r, hr.1, hr.2⟩

/-- C5: the recipe resolver is a pure function of
(product_type, variant, quantity).  For "pincel normal" with a variant of
shape `"<size> - <ferrule>"` it returns exactly
`[Mango(variant, q), Chapita(size, q)]`; for "pinceleta" with a variant
of shape `"<color> - <ferrule-size>"` (both parts non-empty) it returns
exactly `[Manguito pinceleta(color, q), Chapita pinceleta(size, q),
Cerda pinceleta("estándar", q)]`; every other product type resolves to
the empty list. -/
theorem c5_recipe_resolver :
    (∀ (v : String) (q : Int) (size ferrule : String),
        strSplit v = [size, ferrule] →
        compute_mp_needs "pincel normal" v q =
          [("Mango", v, q), ("Chapita", size, q)]) ∧
    (∀ (v : String) (q : Int) (color chapita : String),
        strSplit v = [color, chapita] → color ≠ "" → chapita ≠ "" →
        compute_mp_needs "pinceleta" v q =
          [("Manguito pinceleta", color, q),
           ("Chapita pinceleta", chapita, q),
           ("Cerda pinceleta", "estándar", q)]) ∧
    (∀ (t v : String) (q : Int), t ≠ "pincel normal" → t ≠ "pinceleta" →
        compute_mp_needs t v q = []) := by
  refine ⟨?_, ?_, ?_⟩
  · intro v q size ferrule h
    have hv : v ≠ "" := by
      intro he
      rw [he, show strSplit "" = [""] from by decide] at h
      simp at h
    simp [compute_mp_needs, hv, h]
  · intro v q color chapita h hc hch
    have hv : v ≠ "" := by
      intro he
      rw [he, show strSplit "" = [""] from by decide] at h
      simp at h
    simp [compute_mp_needs, hv, h, hc, hch]
  · intro t v q h1 h2
    simp [compute_mp_needs, h1, h2]

/-- Witness for C5 at the three concrete inputs of the spec scenarios. -/
theorem c5_recipe_resolver_witness :
    compute_mp_needs "pincel normal" "15 - virola 1" 5 =
      [("Mango", "15 - virola 1", 5), ("Chapita", "15", 5)] ∧
    compute_mp_needs "pinceleta" "blanco - 40" 3 =
      [("Manguito pinceleta", "blanco", 3), ("Chapita pinceleta", "40", 3),
       ("Cerda pinceleta", "estándar", 3)] ∧
    compute_mp_needs "rodillo" "x" 2 = [] :=
  ⟨c5_recipe_resolver.1 "15 - virola 1" 5 "15" "virola 1" (by decide),
   c5_recipe_resolver.2.1 "blanco - 40" 3 "blanco" "40" (by decide)
     (by decide) (by decide),
   c5_recipe_resolver.2.2 "rodillo" "x" 2 (by decide) (by decide)⟩

/-- C6: a key matching more than one stock row makes `actualizar_stock`
fail with the duplicate-row error carrying the row count, and the stored
table after the call is the table before it. -/
theorem c6_duplicado_sin_mutacion (movs : List Movimiento)
    (stock : List StockLine) (tipo variante : String) (delta : Int)
    (proveedor : String) (es_entrada : Bool) (now : Nat)
    (h : 1 < (stock.filter (coincide tipo variante)).length) :
    actualizar_stock movs stock tipo variante delta proveedor es_entrada now =
      (.duplicado (stock.filter (coincide tipo variante)).length, stock) := by
  have hany : stock.any (coincide tipo variante) = true := by
    rcases hf : stock.filter (coincide tipo variante) with _ | ⟨a, resto⟩
    · rw [hf] at h
      simp at h
    · have ha : a ∈ stock.filter (coincide tipo variante) := by
        rw [hf]
        exact List.mem_cons_self a resto
      rw [List.mem_filter] at ha
      exact List.any_eq_true.2 ⟨a, ha.1, ha.2⟩
  rcases hf : stock.filter (coincide tipo variante) with _ | ⟨a, _ | ⟨b, resto⟩⟩
  · rw [hf] at h
    simp at h
  · rw [hf] at h
    simp at h
  · simp only [actualizar_stock, hany, if_true, hf]

/-- Witness for C6: two identical rows for the same key. -/
theorem c6_duplicado_sin_mutacion_witness :
    actualizar_stock []
      [⟨"Mango", "7 - virola 1", 50, 3, none, ""⟩,
       ⟨"Mango", "7 - virola 1", 50, 4, none, ""⟩]
      "Mango" "7 - virola 1" 5 "" false 0 =
      (.duplicado 2,
       [⟨"Mango", "7 - virola 1", 50, 3, none, ""⟩,
        ⟨"Mango", "7 - virola 1", 50, 4, none, ""⟩]) := by
  rw [c6_duplicado_sin_mutacion []
    [⟨"Mango", "7 - virola 1", 50, 3, none, ""⟩,
     ⟨"Mango", "7 - virola 1", 50, 4, none, ""⟩]
    "Mango" "7 - virola 1" 5 "" false 0 (by decide)]
  decide

/-- C9: calling `actualizar_stock` with a negative delta on a key that has
no stock row fails (the auto-created row starts at 0, so the delta would
drive it negative, and the reported current quantity is 0) and the stored
table is left unchanged: the auto-created row is not persisted. -/
theorem c9_alta_no_persistida (movs : List Movimiento)
    (stock : List StockLine) (tipo variante : String) (delta : Int)
    (proveedor : String) (es_entrada : Bool) (now : Nat)
    (hno : stock.any (coincide tipo variante) = false) (hneg : delta < 0) :
    actualizar_stock movs stock tipo variante delta proveedor es_entrada now =
      (.negativo 0, stock) := by
  have hfil : stock.filter (coincide tipo variante) = [] := by
    rw [List.any_eq_false] at hno
    exact List.filter_eq_nil_iff.2 fun a ha => by simpa using hno a ha
  have hfil1 : (stock ++ [lineaNueva tipo variante proveedor]).filter
      (coincide tipo variante) = [lineaNueva tipo variante proveedor] := by
    rw [List.filter_append, hfil, List.nil_append, List.filter_cons,
      coincide_lineaNueva]
    simp
  simp only [actualizar_stock, hno, Bool.false_eq_true, if_false, hfil1]
  simp [lineaNueva, hneg]

/-- Witness for C9: no row for the key, delta -5. -/
theorem c9_alta_no_persistida_witness :
    actualizar_stock [] [⟨"Mango", "7 - virola 1", 50, 3, none, ""⟩]
      "Chapita" "7" (-5) "" false 0 =
      (.negativo 0, [⟨"Mango", "7 - virola 1", 50, 3, none, ""⟩]) := by
  rw [c9_alta_no_persistida [] [⟨"Mango", "7 - virola 1", 50, 3, none, ""⟩]
    "Chapita" "7" (-5) "" false 0 (by decide) (by decide)]

/-- C2: `actualizar_stock` never drives a stock quantity negative.  First
part: the stored table after any call has only non-negative quantities
whenever the table before it does (hence along every sequence of calls).
Second part: a call on a uniquely matched row whose delta would make
`current + delta < 0` returns the failure carrying the current quantity
and stores the table unchanged. -/
theorem c2_sin_stock_negativo :
    (∀ (movs : List Movimiento) (stock : List StockLine)
        (tipo variante : String) (delta : Int) (proveedor : String)
        (es_entrada : Bool) (now : Nat),
        (∀ r ∈ stock, 0 ≤ r.stock_actual) →
        ∀ r2 ∈ (actualizar_stock movs stock tipo variante delta proveedor
          es_entrada now).2, 0 ≤ r2.stock_actual) ∧
    (∀ (movs : List Movimiento) (stock : List StockLine)
        (tipo variante : String) (delta : Int) (proveedor : String)
        (es_entrada : Bool) (now : Nat) (r : StockLine),
        stock.filter (coincide tipo variante) = [r] →
        r.stock_actual + delta < 0 →
        actualizar_stock movs stock tipo variante delta proveedor es_entrada now =
          (.negativo r.stock_actual, stock)) := by
  constructor
  · intro movs stock tipo variante delta proveedor es_entrada now hinv r2 hr2
    have hinv1 : ∀ r ∈ (if stock.any (coincide tipo variante) then stock
        else stock ++ [lineaNueva tipo variante proveedor]),
        0 ≤ r.stock_actual := by
      intro r hr
      split at hr
      · exact hinv r hr
      · rcases List.mem_append.1 hr with h | h
        · exact hinv r h
        · rw [List.mem_singleton] at h
          subst h
          simp [lineaNueva]
    rcases hf : (if stock.any (coincide tipo variante) then stock
        else stock ++ [lineaNueva tipo variante proveedor]).filter
        (coincide tipo variante) with _ | ⟨a, _ | ⟨b, resto⟩⟩ <;>
      simp only [actualizar_stock, hf] at hr2
    · exact hinv r2 hr2
    · have ha : a ∈ (if stock.any (coincide tipo variante) then stock
          else stock ++ [lineaNueva tipo variante proveedor]) := by
        have : a ∈ (if stock.any (coincide tipo variante) then stock
            else stock ++ [lineaNueva tipo variante proveedor]).filter
            (coincide tipo variante) := by
          rw [hf]
          exact List.mem_singleton_self a
        exact (List.mem_filter.1 this).1
      split at hr2
      · exact hinv r2 hr2
      · rename_i hpos
        rcases List.mem_map.1 hr2 with ⟨x, hx, rfl⟩
        by_cases hcx : coincide tipo variante x = true
        · have hge := not_lt.1 hpos
          cases es_entrada <;> simp [hcx] <;> omega
        · simp only [hcx, Bool.false_eq_true, if_false]
          exact hinv1 x hx
    · exact hinv r2 hr2
  · intro movs stock tipo variante delta proveedor es_entrada now r hfil hneg
    have hany := any_of_filter_eq_singleton hfil
    have hstock1 : (if stock.any (coincide tipo variante) then stock
        else stock ++ [lineaNueva tipo variante proveedor]) = stock :=
      if_pos hany
    simp only [actualizar_stock, hstock1, hfil]
    simp [hneg]

/-- Witness for C2: quantity 3, a tolerated delta of -2 and a rejected
delta of -5. -/
theorem c2_sin_stock_negativo_witness :
    (∀ r2 ∈ (actualizar_stock [] [⟨"Mango", "7 - virola 1", 50, 3, none, ""⟩]
        "Mango" "7 - virola 1" (-2) "" false 0).2, 0 ≤ r2.stock_actual) ∧
    actualizar_stock [] [⟨"Mango", "7 - virola 1", 50, 3, none, ""⟩]
        "Mango" "7 - virola 1" (-5) "" false 0 =
      (.negativo 3, [⟨"Mango", "7 - virola 1", 50, 3, none, ""⟩]) := by
  constructor
  · exact c2_sin_stock_negativo.1 [] [⟨"Mango", "7 - virola 1", 50, 3, none, ""⟩]
      "Mango" "7 - virola 1" (-2) "" false 0 (by decide)
  · exact c2_sin_stock_negativo.2 [] [⟨"Mango", "7 - virola 1", 50, 3, none, ""⟩]
      "Mango" "7 - virola 1" (-5) "" false 0
      ⟨"Mango", "7 - virola 1", 50, 3, none, ""⟩ (by decide) (by decide)

/-- C4 counterexample: the claim asserts that the Scenario-1 entry leaves
`most_frequent_supplier = "ACME"`, but `actualizar_stock` recomputes the
most frequent supplier from the ENTRADA movements recorded BEFORE the
current entry (the movement is appended only afterwards), and it skips
the update when there are none — so starting from an empty movement
history the field keeps its prior value `""`. -/
theorem c4_entrada_contraejemplo :
    ((registrar_entrada
        { catalogo := [⟨"Mango", "15 - virola 1", 50⟩],
          stock_mp := [⟨"Mango", "15 - virola 1", 50, 0, none, ""⟩],
          movimientos := [], productos := [], produccion := [],
          pedidos := [], despachos := [] }
        "Mango" "15 - virola 1" 20 "ACME" "" "" "op" 99 100).2.stock_mp.map
      StockLine.proveedor_mas_frecuente) = [""] ∧
    ((registrar_entrada
        { catalogo := [⟨"Mango", "15 - virola 1", 50⟩],
          stock_mp := [⟨"Mango", "15 - virola 1", 50, 0, none, ""⟩],
          movimientos := [], productos := [], produccion := [],
          pedidos := [], despachos := [] }
        "Mango" "15 - virola 1" 20 "ACME" "" "" "op" 99 100).2.stock_mp.map
      StockLine.proveedor_mas_frecuente) ≠ ["ACME"] := by
  constructor
  · decide
  · decide

/-- C4 as amended: the Scenario-1 entry (+20, supplier "ACME", on the
Mango/"15 - virola 1" line at 0 with an empty movement history) succeeds
with quantity 20, sets `ultima_entrada` to the operation clock, appends
exactly one ENTRADA movement of quantity 20, and leaves
`most_frequent_supplier` at its prior value `""` — not "ACME" — because
the supplier mode is recomputed from the movements recorded before this
entry and the update is skipped when none exist. -/
theorem c4_entrada_escenario1 :
    registrar_entrada
      { catalogo := [⟨"Mango", "15 - virola 1", 50⟩],
        stock_mp := [⟨"Mango", "15 - virola 1", 50, 0, none, ""⟩],
        movimientos := [], productos := [], produccion := [],
        pedidos := [], despachos := [] }
      "Mango" "15 - virola 1" 20 "ACME" "" "" "op" 99 100 =
      (.ok 20,
       { catalogo := [⟨"Mango", "15 - virola 1", 50⟩],
         stock_mp := [⟨"Mango", "15 - virola 1", 50, 20, some 100, ""⟩],
         movimientos := [⟨99, "ENTRADA", "Mango", "15 - virola 1", 20,
           "ACME", "", "", "op"⟩],
         productos := [], produccion := [], pedidos := [],
         despachos := [] }) := by
  decide

/-- C1 at the Scenario-2 input: `page_produccion` saves the production
record BEFORE the stock check, so a produce call that then fails the
shortfall validation (Chapita/"15": need 5, have 3) leaves that record
persisted — contradicting the claimed absence of side effects — while the
stock table, movement log and finished-goods table are indeed unchanged.
The per-order production flow of `page_pedidos`, by contrast, validates
first and leaves the whole store untouched on the same shortfall. -/
theorem c1_falta_deja_registro_produccion :
    (registrar_produccion
        { catalogo := [],
          stock_mp := [⟨"Mango", "15 - virola 1", 50, 20, none, ""⟩,
                       ⟨"Chapita", "15", 50, 3, none, ""⟩],
          movimientos := [], productos := [], produccion := [],
          pedidos := [], despachos := [] }
        "pincel normal" "15 - virola 1" 5 true [] "" "op" 100 =
      (.faltaMP [.insuficiente "Chapita" "15" 3 5],
       { catalogo := [],
         stock_mp := [⟨"Mango", "15 - virola 1", 50, 20, none, ""⟩,
                      ⟨"Chapita", "15", 50, 3, none, ""⟩],
         movimientos := [], productos := [],
         produccion := [⟨100, "pincel normal", 5, "op", "", "15 - virola 1"⟩],
         pedidos := [], despachos := [] })) ∧
    (generar_produccion
        { catalogo := [],
          stock_mp := [⟨"Mango", "15 - virola 1", 50, 20, none, ""⟩,
                       ⟨"Chapita", "15", 50, 3, none, ""⟩],
          movimientos := [], productos := [], produccion := [],
          pedidos := [⟨1, 0, "cli", "pincel normal", "15 - virola 1", 5,
            "2024-01-01", "pendiente", ""⟩],
          despachos := [] }
        1 .completo 0 "op" 100 =
      (.faltaMP [.insuficiente "Chapita" "15" 3 5],
       { catalogo := [],
         stock_mp := [⟨"Mango", "15 - virola 1", 50, 20, none, ""⟩,
                      ⟨"Chapita", "15", 50, 3, none, ""⟩],
         movimientos := [], productos := [], produccion := [],
         pedidos := [⟨1, 0, "cli", "pincel normal", "15 - virola 1", 5,
           "2024-01-01", "pendiente", ""⟩],
         despachos := [] })) := by
  constructor
  · decide
  · decide

/-- Every automatic consumption line carries exactly the produced
quantity. -/
theorem auto_items_cantidad (tipo_prod variante_producto : String)
    (cant : Int) (auto_desc : Bool) :
    ∀ x ∈ auto_items_produccion tipo_prod variante_producto cant auto_desc,
      x.2.2 = cant := by
  intro x hx
  unfold auto_items_produccion at hx
  split at hx
  · simp only [List.mem_cons, List.not_mem_nil, or_false] at hx
    rcases hx with rfl | rfl <;> rfl
  · split at hx
    · split at hx
      · simp only [List.mem_cons, List.not_mem_nil, or_false] at hx
        rcases hx with rfl | rfl | rfl <;> rfl
      · simp at hx
    · simp at hx

/-- The debit loop preserves positivity of the movement-log quantities
whenever every consumption line is positive: each appended SALIDA
movement carries one of those quantities. -/
theorem aplicar_items_cantidades :
    ∀ (items : List (String × String × Int)) (s : Store)
      (nota_mov usuario : String) (now : Nat)
      (res : Option (String × String)) (s2 : Store),
      aplicar_items s items nota_mov usuario now = (res, s2) →
      (∀ m ∈ s.movimientos, 0 < m.cantidad) →
      (∀ x ∈ items, 0 < x.2.2) →
      ∀ m ∈ s2.movimientos, 0 < m.cantidad := by
  intro items
  induction items with
  | nil =>
    intro s nota_mov usuario now res s2 heq hm _ m hmem
    simp only [aplicar_items] at heq
    cases heq
    exact hm m hmem
  | cons x rest ih =>
    intro s nota_mov usuario now res s2 heq hm hx m hmem
    simp only [aplicar_items] at heq
    split at heq
    · refine ih _ _ _ _ _ _ heq ?_ (fun y hy => hx y (List.mem_cons_of_mem x hy))
        m hmem
      intro m2 hm2
      simp only [add_movimiento, List.mem_append, List.mem_singleton] at hm2
      rcases hm2 with h | h
      · exact hm m2 h
      · subst h
        simpa using hx x (List.mem_cons_self x rest)
    · cases heq
      exact hm m hmem

/-- The finished-goods credit does not touch the movement log. -/
theorem acreditar_movimientos (s : Store) (tipo_prod variante : String)
    (cant : Int) :
    (acreditar_terminado s tipo_prod variante cant).movimientos =
      s.movimientos := rfl

/-- C8 as amended: entry movements (the form enforces quantity >= 1) and
production-exit movements are always positive, and a manual adjustment
appends a positive movement whenever its delta is non-zero; stated as
preservation of positivity of the whole movement log across the three
operations.  The delta-0 adjustment case excluded here is the real
counterexample to the original claim. -/
theorem c8_movimientos_positivos :
    (∀ (s : Store) (tipo variante : String) (cantidad : Int)
        (proveedor documento obs usuario : String) (fechaMov now : Nat),
        (∀ m ∈ s.movimientos, 0 < m.cantidad) → 0 < cantidad →
        ∀ m ∈ (registrar_entrada s tipo variante cantidad proveedor documento
          obs usuario fechaMov now).2.movimientos, 0 < m.cantidad) ∧
    (∀ (s : Store) (tipo variante : String) (delta : Int)
        (obs usuario : String) (now : Nat),
        (∀ m ∈ s.movimientos, 0 < m.cantidad) → delta ≠ 0 →
        ∀ m ∈ (aplicar_ajuste s tipo variante delta obs usuario
          now).2.movimientos, 0 < m.cantidad) ∧
    (∀ (s : Store) (tipo_prod variante_producto : String) (cant : Int)
        (auto_desc : Bool) (items : List (String × String × Int))
        (nota usuario : String) (now : Nat),
        (∀ m ∈ s.movimientos, 0 < m.cantidad) → 0 < cant →
        ∀ m ∈ (registrar_produccion s tipo_prod variante_producto cant
          auto_desc items nota usuario now).2.movimientos, 0 < m.cantidad) := by
  refine ⟨?_, ?_, ?_⟩
  · intro s tipo variante cantidad proveedor documento obs usuario fm now
      hm hc m hmem
    simp only [registrar_entrada] at hmem
    split at hmem
    · exact hm m (by simpa using hmem)
    · split at hmem
      · exact hm m (by simpa using hmem)
      · split at hmem
        · exact hm m (by simpa using hmem)
        · split at hmem
          · simp only [add_movimiento, List.mem_append, List.mem_singleton]
              at hmem
            rcases hmem with h | h
            · exact hm m h
            · subst h
              simpa using hc
          · exact hm m (by simpa using hmem)
  · intro s tipo variante delta obs usuario now hm hd m hmem
    simp only [aplicar_ajuste] at hmem
    split at hmem
    · simp only [add_movimiento, List.mem_append, List.mem_singleton] at hmem
      rcases hmem with h | h
      · exact hm m h
      · subst h
        simpa using abs_pos.2 hd
    · exact hm m (by simpa using hmem)
  · intro s tipo_prod variante_producto cant auto_desc items nota usuario now
      hm hc m hmem
    have hitems : ∀ x ∈ auto_items_produccion tipo_prod variante_producto cant
        auto_desc ++ items.filter (fun x => x.1 ≠ "" ∧ x.2.1 ≠ "" ∧ 0 < x.2.2),
        0 < x.2.2 := by
      intro x hx
      rcases List.mem_append.1 hx with h | h
      · rw [auto_items_cantidad tipo_prod variante_producto cant auto_desc x h]
        exact hc
      · have h2 := (List.mem_filter.1 h).2
        simp only [decide_eq_true_eq] at h2
        exact h2.2.2
    simp only [registrar_produccion] at hmem
    split at hmem
    · exact hm m (by simpa using hmem)
    · split at hmem
      · rename_i tv s2 heq
        refine aplicar_items_cantidades _ _ _ _ _ _ _ heq ?_ hitems m
          (by simpa using hmem)
        intro m2 hm2
        exact hm m2 (by simpa using hm2)
      · rename_i s2 heq
        rw [acreditar_movimientos] at hmem
        refine aplicar_items_cantidades _ _ _ _ _ _ _ heq ?_ hitems m
          (by simpa using hmem)
        intro m2 hm2
        exact hm m2 (by simpa using hm2)

/-- C8 counterexample: a manual adjustment of delta 0 is accepted and
appends an AJUSTE movement record of quantity 0, refuting the claim that
every appended movement record has quantity strictly greater than 0. -/
theorem c8_movimientos_positivos_contraejemplo :
    ¬ (∀ m ∈ (aplicar_ajuste
        { catalogo := [],
          stock_mp := [⟨"Mango", "7 - virola 1", 50, 5, none, ""⟩],
          movimientos := [], productos := [], produccion := [],
          pedidos := [], despachos := [] }
        "Mango" "7 - virola 1" 0 "Ajuste manual" "op" 50).2.movimientos,
      0 < m.cantidad) := by
  decide

/-- Witness for C8: positivity is preserved by an entry of 20, an
adjustment of -2 and a production of 5 on concrete stores. -/
theorem c8_movimientos_positivos_witness :
    (∀ m ∈ (registrar_entrada
        { catalogo := [⟨"Mango", "15 - virola 1", 50⟩],
          stock_mp := [⟨"Mango", "15 - virola 1", 50, 0, none, ""⟩],
          movimientos := [], productos := [], produccion := [],
          pedidos := [], despachos := [] }
        "Mango" "15 - virola 1" 20 "ACME" "" "" "op" 99 100).2.movimientos,
      0 < m.cantidad) ∧
    (∀ m ∈ (aplicar_ajuste
        { catalogo := [],
          stock_mp := [⟨"Mango", "7 - virola 1", 50, 5, none, ""⟩],
          movimientos := [], productos := [], produccion := [],
          pedidos := [], despachos := [] }
        "Mango" "7 - virola 1" (-2) "rotura" "op" 50).2.movimientos,
      0 < m.cantidad) ∧
    (∀ m ∈ (registrar_produccion
        { catalogo := [],
          stock_mp := [⟨"Mango", "15 - virola 1", 50, 20, none, ""⟩,
                       ⟨"Chapita", "15", 50, 10, none, ""⟩],
          movimientos := [], productos := [], produccion := [],
          pedidos := [], despachos := [] }
        "pincel normal" "15 - virola 1" 5 true [] "" "op" 100).2.movimientos,
      0 < m.cantidad) :=
  ⟨c8_movimientos_positivos.1
      { catalogo := [⟨"Mango", "15 - virola 1", 50⟩],
        stock_mp := [⟨"Mango", "15 - virola 1", 50, 0, none, ""⟩],
        movimientos := [], productos := [], produccion := [],
        pedidos := [], despachos := [] }
      "Mango" "15 - virola 1" 20 "ACME" "" "" "op" 99 100
      (by decide) (by decide),
   c8_movimientos_positivos.2.1
      { catalogo := [],
        stock_mp := [⟨"Mango", "7 - virola 1", 50, 5, none, ""⟩],
        movimientos := [], productos := [], produccion := [],
        pedidos := [], despachos := [] }
      "Mango" "7 - virola 1" (-2) "rotura" "op" 50 (by decide) (by decide),
   c8_movimientos_positivos.2.2
      { catalogo := [],
        stock_mp := [⟨"Mango", "15 - virola 1", 50, 20, none, ""⟩,
                     ⟨"Chapita", "15", 50, 10, none, ""⟩],
        movimientos := [], productos := [], produccion := [],
        pedidos := [], despachos := [] }
      "pincel normal" "15 - virola 1" 5 true [] "" "op" 100
      (by decide) (by decide)⟩

/-- Success analysis of `despachar`: when the dispatch goes through, the
state written for every row of the order is "completado" exactly when the
mode was Completo (in which case the dispatched quantity is the requested
one), and "confirmado" in every other case. -/
theorem despachar_estado_aux :
    ∀ (s : Store) (pid : Int) (modo : Modo) (qty_row : Int)
      (usuario : String) (now : Nat) (res : DespResult) (s2 : Store),
      despachar s pid modo qty_row usuario now = (res, s2) → res = .ok →
      ∀ p ∈ s2.pedidos, p.id = pid →
        p.estado = (if modo = Modo.completo then "completado"
          else "confirmado") := by
  intro s pid modo qty_row usuario now res s2 heq hres p hp hid
  subst hres
  simp only [despachar] at heq
  split at heq
  · simp at heq
  · split at heq
    · simp at heq
    · split at heq
      · simp at heq
      · split at heq
        · simp at heq
        · rw [Prod.mk.injEq] at heq
          obtain ⟨-, hs2⟩ := heq
          subst hs2
          simp only [List.mem_map] at hp
          obtain ⟨x, hx, rfl⟩ := hp
          by_cases hxid : (x.id == pid) = true
          · simp only [hxid, if_true]
            cases modo
            · simp
            · simp
          · have hxf : (x.id == pid) = false := by simpa using hxid
            simp only [hxf, Bool.false_eq_true, if_false] at hid
            exact absurd hid (by simpa using hxf)

/-- C3 as amended: a successful dispatch sets the order state to
"completado" exactly when the mode is Completo; in Parcial mode the state
is set to "confirmado" even when the dispatched quantity is at least the
requested one, so two partial dispatches totalling the request leave the
order "confirmado", not "completado". -/
theorem c3_despacho_estado (s : Store) (pid : Int) (modo : Modo)
    (qty_row : Int) (usuario : String) (now : Nat)
    (h : (despachar s pid modo qty_row usuario now).1 = .ok) :
    ∀ p ∈ (despachar s pid modo qty_row usuario now).2.pedidos, p.id = pid →
      p.estado = (if modo = Modo.completo then "completado"
        else "confirmado") :=
  despachar_estado_aux s pid modo qty_row usuario now _ _ rfl h

/-- C3 counterexample: a successful partial-mode dispatch of the full
requested quantity (q = r = 10) leaves the order "confirmado", refuting
the claim that the state is "completado" whenever q >= r regardless of
mode. -/
theorem c3_despacho_contraejemplo :
    (despachar
        { catalogo := [], stock_mp := [], movimientos := [],
          productos := [⟨"pincel normal", "15 - virola 1", 10⟩],
          produccion := [],
          pedidos := [⟨1, 0, "cli", "pincel normal", "15 - virola 1", 10,
            "2024-01-01", "pendiente", ""⟩],
          despachos := [] }
        1 .parcial 10 "op" 100).1 = .ok ∧
    ((despachar
        { catalogo := [], stock_mp := [], movimientos := [],
          productos := [⟨"pincel normal", "15 - virola 1", 10⟩],
          produccion := [],
          pedidos := [⟨1, 0, "cli", "pincel normal", "15 - virola 1", 10,
            "2024-01-01", "pendiente", ""⟩],
          despachos := [] }
        1 .parcial 10 "op" 100).2.pedidos.map Pedido.estado) = ["confirmado"] ∧
    ("confirmado" : String) ≠ "completado" := by
  refine ⟨by decide, by decide, by decide⟩

/-- Witness for C3: a successful partial dispatch of 4 out of 10. -/
theorem c3_despacho_estado_witness :
    (despachar
        { catalogo := [], stock_mp := [], movimientos := [],
          productos := [⟨"pincel normal", "15 - virola 1", 5⟩],
          produccion := [],
          pedidos := [⟨1, 0, "cli", "pincel normal", "15 - virola 1", 10,
            "2024-01-01", "pendiente", ""⟩],
          despachos := [] }
        1 .parcial 4 "op" 100).1 = .ok ∧
    (∀ p ∈ (despachar
        { catalogo := [], stock_mp := [], movimientos := [],
          productos := [⟨"pincel normal", "15 - virola 1", 5⟩],
          produccion := [],
          pedidos := [⟨1, 0, "cli", "pincel normal", "15 - virola 1", 10,
            "2024-01-01", "pendiente", ""⟩],
          despachos := [] }
        1 .parcial 4 "op" 100).2.pedidos, p.id = 1 →
      p.estado = (if Modo.parcial = Modo.completo then "completado"
        else "confirmado")) :=
  ⟨by decide,
   c3_despacho_estado
     { catalogo := [], stock_mp := [], movimientos := [],
       productos := [⟨"pincel normal", "15 - virola 1", 5⟩],
       produccion := [],
       pedidos := [⟨1, 0, "cli", "pincel normal", "15 - virola 1", 10,
         "2024-01-01", "pendiente", ""⟩],
       despachos := [] }
     1 .parcial 4 "op" 100 (by decide)⟩

/-- Success analysis of `generar_produccion`: when the per-order
production goes through, the state written for every row of the order is
"en_produccion". -/
theorem generar_estado_aux :
    ∀ (s : Store) (pid : Int) (modo : Modo) (qty_prod : Int)
      (usuario : String) (now : Nat) (res : GenResult) (s2 : Store),
      generar_produccion s pid modo qty_prod usuario now = (res, s2) →
      res = .ok →
      ∀ p ∈ s2.pedidos, p.id = pid → p.estado = "en_produccion" := by
  intro s pid modo qty_prod usuario now res s2 heq hres p hp hid
  subst hres
  simp only [generar_produccion] at heq
  split at heq
  · simp at heq
  · split at heq
    · simp at heq
    · split at heq
      · simp at heq
      · split at heq
        · simp at heq
        · rw [Prod.mk.injEq] at heq
          obtain ⟨-, hs2⟩ := heq
          subst hs2
          simp only [List.mem_map] at hp
          obtain ⟨x, hx, rfl⟩ := hp
          by_cases hxid : (x.id == pid) = true
          · simp [hxid]
          · have hxf : (x.id == pid) = false := by simpa using hxid
            simp only [hxf, Bool.false_eq_true, if_false] at hid
            exact absurd hid (by simpa using hxf)

/-- C10: a successful per-order "generate production" sets the order
state to "en_produccion" unconditionally on the prior state — there is no
precondition on the current state (a "completado" or "cancelado" order is
re-set to "en_produccion" all the same) and no cap relative to what was
already produced. -/
theorem c10_generar_estado (s : Store) (pid : Int) (modo : Modo)
    (qty_prod : Int) (usuario : String) (now : Nat)
    (h : (generar_produccion s pid modo qty_prod usuario now).1 = .ok) :
    ∀ p ∈ (generar_produccion s pid modo qty_prod usuario now).2.pedidos,
      p.id = pid → p.estado = "en_produccion" :=
  generar_estado_aux s pid modo qty_prod usuario now _ _ rfl h

/-- Witness for C10: production is generated for an order already in
state "completado", and its state becomes "en_produccion". -/
theorem c10_generar_estado_witness :
    (generar_produccion
        { catalogo := [],
          stock_mp := [⟨"Mango", "15 - virola 1", 50, 20, none, ""⟩,
                       ⟨"Chapita", "15", 50, 20, none, ""⟩],
          movimientos := [], productos := [], produccion := [],
          pedidos := [⟨1, 0, "cli", "pincel normal", "15 - virola 1", 10,
            "2024-01-01", "completado", ""⟩],
          despachos := [] }
        1 .completo 0 "op" 100).1 = .ok ∧
    (∀ p ∈ (generar_produccion
        { catalogo := [],
          stock_mp := [⟨"Mango", "15 - virola 1", 50, 20, none, ""⟩,
                       ⟨"Chapita", "15", 50, 20, none, ""⟩],
          movimientos := [], productos := [], produccion := [],
          pedidos := [⟨1, 0, "cli", "pincel normal", "15 - virola 1", 10,
            "2024-01-01", "completado", ""⟩],
          despachos := [] }
        1 .completo 0 "op" 100).2.pedidos, p.id = 1 →
      p.estado = "en_produccion") :=
  ⟨by decide,
   c10_generar_estado
     { catalogo := [],
       stock_mp := [⟨"Mango", "15 - virola 1", 50, 20, none, ""⟩,
                    ⟨"Chapita", "15", 50, 20, none, ""⟩],
       movimientos := [], productos := [], produccion := [],
       pedidos := [⟨1, 0, "cli", "pincel normal", "15 - virola 1", 10,
         "2024-01-01", "completado", ""⟩],
       despachos := [] }
     1 .completo 0 "op" 100 (by decide)⟩

/-- The row mask tests exactly the grouping key. -/
theorem coincide_iff_clave (t v : String) (r : StockLine) :
    coincide t v r = true ↔ claveStock r = (t, v) := by
  simp [coincide, claveStock, Prod.ext_iff]

/-- The aggregated row of a group carries the group key. -/
theorem clave_agrupa (l : List StockLine) (k : String × String) :
    claveStock (agrupa l k) = k := by
  unfold agrupa
  split <;> simp [claveStock]

/-- The keys of the merged table are the sorted, deduplicated keys of the
input table. -/
theorem mapa_clave_merge (l : List StockLine) :
    (merge_duplicates l).map claveStock =
      List.insertionSort claveLe ((l.map claveStock).dedup) := by
  unfold merge_duplicates
  rw [List.map_map]
  have h : claveStock ∘ agrupa l = id := funext fun k => clave_agrupa l k
  rw [h, List.map_id]

/-- In a table built from a duplicate-free key list, the rows matching a
key of the list are exactly the one aggregated row of that key. -/
theorem filtro_mapa_agrupa (l : List StockLine) (k : String × String) :
    ∀ K : List (String × String), K.Nodup → k ∈ K →
      (K.map (agrupa l)).filter (coincide k.1 k.2) = [agrupa l k] := by
  intro K
  induction K with
  | nil =>
    intro _ hk
    exact absurd hk (List.not_mem_nil k)
  | cons a K ih =>
    intro hnd hk
    obtain ⟨hna, hndK⟩ := List.nodup_cons.1 hnd
    rw [List.map_cons]
    rcases List.mem_cons.1 hk with rfl | hk2
    · have hc : coincide k.1 k.2 (agrupa l k) = true := by
        rw [coincide_iff_clave, clave_agrupa]
      have hnil : (K.map (agrupa l)).filter (coincide k.1 k.2) = [] := by
        apply List.filter_eq_nil_iff.2
        intro b hb
        obtain ⟨k2, hk2K, rfl⟩ := List.mem_map.1 hb
        intro hcb
        rw [coincide_iff_clave, clave_agrupa, Prod.mk.eta] at hcb
        exact hna (hcb ▸ hk2K)
      rw [List.filter_cons, if_pos hc, hnil]
    · have hc : ¬ (coincide k.1 k.2 (agrupa l a) = true) := by
        rw [coincide_iff_clave, clave_agrupa, Prod.mk.eta]
        intro he
        subst he
        exact hna hk2
      rw [List.filter_cons, if_neg hc]
      exact ih hndK hk2

/-- Aggregating a key whose group is one single row of that key returns
the row unchanged: max, sum and max over a singleton are the value
itself, and "first" is the row's own supplier. -/
theorem agrupa_singleton (m : List StockLine) (k : String × String)
    (r : StockLine) (hf : m.filter (coincide k.1 k.2) = [r])
    (hr : claveStock r = k) :
    agrupa m k = r := by
  subst hr
  cases r with
  | mk t v sm sa ue pv =>
    unfold agrupa
    rw [hf]
    rfl

/-- C7: `merge_duplicates` is idempotent — merging an already merged
stock table changes nothing.  After one merge the keys are distinct and
sorted, so the second `groupby` sees singleton groups (whose max, sum,
max and first reproduce each row) in an already sorted key order. -/
theorem c7_merge_duplicates_idempotente (l : List StockLine) :
    merge_duplicates (merge_duplicates l) = merge_duplicates l := by
  have hK := mapa_clave_merge l
  have hnd : (List.insertionSort claveLe ((l.map claveStock).dedup)).Nodup :=
    ((List.perm_insertionSort claveLe ((l.map claveStock).dedup)).symm).nodup
      (List.nodup_dedup _)
  have hsor : (List.insertionSort claveLe
      ((l.map claveStock).dedup)).Sorted claveLe :=
    List.sorted_insertionSort claveLe _
  have step1 : merge_duplicates (merge_duplicates l) =
      (List.insertionSort claveLe ((l.map claveStock).dedup)).map
        (agrupa (merge_duplicates l)) := by
    show (List.insertionSort claveLe
        (((merge_duplicates l).map claveStock).dedup)).map
        (agrupa (merge_duplicates l)) = _
    rw [hK, List.Nodup.dedup hnd, List.Sorted.insertionSort_eq hsor]
  rw [step1]
  have step2 : merge_duplicates l =
      (List.insertionSort claveLe ((l.map claveStock).dedup)).map
        (agrupa l) := rfl
  conv_rhs => rw [step2]
  apply List.map_congr_left
  intro k hk
  exact agrupa_singleton (merge_duplicates l) k (agrupa l k)
    (filtro_mapa_agrupa l k
      (List.insertionSort claveLe ((l.map claveStock).dedup)) hnd hk)
    (clave_agrupa l k)
